import Mathlib

/-!
# Verification of the SmartThings switch / media player integration

Shallow embedding of `custom_components/smartthings/switch.py` and
`custom_components/smartthings/media_player.py`.  Python attribute values are
modelled by `PyVal`; a device status snapshot is an attribute-keyed map; the
async command handlers become explicit state-passing functions whose remote
call results are Boolean inputs, and whose issued remote calls and emitted
"state changed" notifications are returned as data so that theorems can speak
about them.
-/

namespace SmartThings

/-- A Python value as it occurs in this code base: `None`, a bool, an int or a
string (the on/off values and attribute values are only ever of these kinds). -/
inductive PyVal
  | none
  | bool (b : Bool)
  | int (n : Int)
  | str (s : String)
deriving DecidableEq, Repr

/-- Numeric view used by Python `==`: bools compare equal to 0/1. -/
def PyVal.toNum : PyVal → Option Int
  | .bool b => some (if b then 1 else 0)
  | .int n => some n
  | _ => Option.none

/-- Python `==` on the values above: strings compare by content, bools and
ints compare numerically (`True == 1`), `None` equals only `None`. -/
def pyEq : PyVal → PyVal → Bool
  | .str x, .str y => x == y
  | .none, .none => true
  | .bool x, .bool y => x == y
  | .int x, .int y => x == y
  | .bool x, .int y => (if x then (1 : Int) else 0) == y
  | .int x, .bool y => x == (if y then (1 : Int) else 0)
  | _, _ => false

/-- The device status snapshot: an attribute-name-keyed mapping of values,
mirroring `device.status` of the external client (spec section 3). -/
structure DeviceStatus where
  attrs : String → PyVal

/-- `status.update_attribute_value(attribute, value)` of the external client:
in-place patching of one attribute value in the snapshot (spec section 6). -/
def DeviceStatus.update_attribute_value (st : DeviceStatus) (a : String) (v : PyVal) : DeviceStatus :=
  ⟨fun x => if x = a then v else st.attrs x⟩

/-- Modelled from the spec: dynamic attribute lookup on the external status
object (`getattr(self._device.status, self._attribute)`, spec sections 6 and 9).
The client library exposes the `switch` attribute as a boolean view — true
exactly when the stored value equals the on state `"on"` — and the other
attributes this module reads as their raw snapshot values. -/
def DeviceStatus.getattr (st : DeviceStatus) (a : String) : PyVal :=
  if a = "switch" then PyVal.bool (pyEq (st.attrs "switch") (PyVal.str "on"))
  else st.attrs a

/-- Modelled from the spec: `device.switch_on(set_status=True)` of the external
client — the remote on command whose `set_status=True` optimistically patches
the snapshot's switch attribute to the on state (spec sections 4.2 and 6). -/
def switch_on_set_status (st : DeviceStatus) : DeviceStatus :=
  st.update_attribute_value "switch" (PyVal.str "on")

/-- Modelled from the spec: `device.switch_off(set_status=True)` of the
external client, patching the snapshot's switch attribute to the off state. -/
def switch_off_set_status (st : DeviceStatus) : DeviceStatus :=
  st.update_attribute_value "switch" (PyVal.str "off")

namespace Switch

/-- The `Map` namedtuple of `switch.py`: one capability-to-switch mapping
record.  (`attribute` is a Lean keyword, so that field is named `attr`.) -/
structure Map where
  attr : String
  on_command : String
  off_command : String
  on_value : PyVal
  off_value : PyVal
  name : String
  icon : Option String
  extra_state_attributes : Option (List String)
deriving DecidableEq, Repr

/-- The `CAPABILITY_TO_SWITCH` registry of `switch.py`, in source (insertion)
order; Python dicts preserve insertion order. -/
def CAPABILITY_TO_SWITCH : List (String × List Map) :=
  [ ("switch",
      [⟨"switch", "switch_on", "switch_off", PyVal.str "on", PyVal.str "off",
        "Switch", Option.none, Option.none⟩]),
    ("audioMute",
      [⟨"mute", "setMute", "setMute", PyVal.str "muted", PyVal.str "unmuted",
        "Mute", some "mdi:volume-mute", Option.none⟩]),
    ("custom.spiMode",
      [⟨"spiMode", "setSpiMode", "setSpiMode", PyVal.str "on", PyVal.str "off",
        "SPI Mode", Option.none, Option.none⟩]),
    ("custom.autoCleaningMode",
      [⟨"autoCleaningMode", "setAutoCleaningMode", "setAutoCleaningMode",
        PyVal.str "on", PyVal.str "off", "Auto Cleaning Mode",
        some "mdi:shimmer", Option.none⟩]) ]

/-- `get_capabilities` of `switch.py`: the list comprehension
`[capability for capability in CAPABILITY_TO_SWITCH if capability in capabilities]`. -/
def get_capabilities (capabilities : List String) : List String :=
  (CAPABILITY_TO_SWITCH.map Prod.fst).filter (fun c => decide (c ∈ capabilities))

/-- The `SmartThingsSwitch` adapter: configuration held by one generic switch
entity (the device reference is passed to each operation as a snapshot). -/
structure SmartThingsSwitch where
  attr : String
  on_command : String
  off_command : String
  on_value : PyVal
  off_value : PyVal
  name : String
  icon : Option String
  extra_state_attributes : Option (List String)
deriving DecidableEq, Repr

/-- `SmartThingsSwitch.async_turn_on`: awaits `switch_on(set_status=True)` and
then emits the state-changed notification (second component `true`). -/
def SmartThingsSwitch.async_turn_on (_sw : SmartThingsSwitch) (st : DeviceStatus) :
    DeviceStatus × Bool :=
  (switch_on_set_status st, true)

/-- `SmartThingsSwitch.async_turn_off`: awaits `switch_off(set_status=True)`
and then emits the state-changed notification. -/
def SmartThingsSwitch.async_turn_off (_sw : SmartThingsSwitch) (st : DeviceStatus) :
    DeviceStatus × Bool :=
  (switch_off_set_status st, true)

/-- `SmartThingsSwitch.is_on`: `getattr(self._device.status, self._attribute)`. -/
def SmartThingsSwitch.is_on (sw : SmartThingsSwitch) (st : DeviceStatus) : PyVal :=
  st.getattr sw.attr

/-- The generic switch instance built by `async_setup_entry` from the
`Capability.switch` registry entry (the only capability routed to
`SmartThingsSwitch`). -/
def genericSwitch : SmartThingsSwitch :=
  ⟨"switch", "switch_on", "switch_off", PyVal.str "on", PyVal.str "off",
   "Switch", Option.none, Option.none⟩

/-- One `device.command(component, capability, command, args)` invocation. -/
structure CommandCall where
  component : String
  capability : String
  command : String
  args : List PyVal
deriving DecidableEq, Repr

/-- Result of running one custom-switch command handler: the remote call it
issued, the snapshot afterwards, and whether `async_write_ha_state` ran. -/
structure CommandOutcome where
  call : CommandCall
  status : DeviceStatus
  wrote_ha_state : Bool

/-- The `SmartThingsCustomSwitch` adapter configuration. -/
structure SmartThingsCustomSwitch where
  capability : String
  attr : String
  on_command : String
  off_command : String
  on_value : PyVal
  off_value : PyVal
  name : String
  icon : Option String
  extra_state_attributes : Option (List String)
deriving DecidableEq, Repr

/-- `SmartThingsCustomSwitch.async_turn_off`: issues
`device.command("main", capability, off_command, [off_value])`; on a truthy
result patches the snapshot's attribute to the off value; always emits the
state-changed notification.  `result` is the awaited Boolean remote result. -/
def SmartThingsCustomSwitch.async_turn_off (sw : SmartThingsCustomSwitch)
    (st : DeviceStatus) (result : Bool) : CommandOutcome :=
  { call := ⟨"main", sw.capability, sw.off_command, [sw.off_value]⟩
    status := if result then st.update_attribute_value sw.attr sw.off_value else st
    wrote_ha_state := true }

/-- `SmartThingsCustomSwitch.async_turn_on`, symmetric to turn-off. -/
def SmartThingsCustomSwitch.async_turn_on (sw : SmartThingsCustomSwitch)
    (st : DeviceStatus) (result : Bool) : CommandOutcome :=
  { call := ⟨"main", sw.capability, sw.on_command, [sw.on_value]⟩
    status := if result then st.update_attribute_value sw.attr sw.on_value else st
    wrote_ha_state := true }

/-- `SmartThingsCustomSwitch.is_on`: when the configured on value is not
`None`, the Python comparison `getattr(status, attribute) == on_value`
(a bool); otherwise the raw attribute value itself. -/
def SmartThingsCustomSwitch.is_on (sw : SmartThingsCustomSwitch) (st : DeviceStatus) : PyVal :=
  if sw.on_value ≠ PyVal.none then PyVal.bool (pyEq (st.getattr sw.attr) sw.on_value)
  else st.getattr sw.attr

/-- The "Audio" custom switch instance built by `async_setup_entry` for
Samsung OCF climate devices: attribute `volume`, on value `100`, off value `0`. -/
def audioSwitch : SmartThingsCustomSwitch :=
  ⟨"audioVolume", "volume", "setVolume", "setVolume", PyVal.int 100, PyVal.int 0,
   "Audio", some "mdi:volume-high", Option.none⟩

/-- An element of the payload container at the watched key in the OCF data
attribute: either a plain string or a list of strings (the two shapes Python's
`in` test is applied to in `SamsungOcfSwitch.is_on`). -/
inductive OutElem
  | str (s : String)
  | strs (l : List String)
deriving DecidableEq, Repr

/-- The `SamsungOcfSwitch` adapter configuration. -/
structure SamsungOcfSwitch where
  page : String
  key : String
  on_value : List String
  off_value : List String
  name : String
  on_icon : Option String
  off_icon : Option String
deriving DecidableEq, Repr

/-- The instance-local state of a `SamsungOcfSwitch`: the cached on/off flag
`execute_state` and the initialisation flag `init_bool` (both start `False`). -/
structure OcfState where
  execute_state : Bool
  init_bool : Bool
deriving DecidableEq, Repr

/-- The slice of the device status an OCF switch reads: the `data` attribute's
metadata href (`status.attributes[Attribute.data].data["href"]`) and its value
payload dictionary (`status.attributes[Attribute.data].value["payload"]`),
keyed association-list style. -/
structure OcfSnapshot where
  data_href : String
  data_payload : List (String × List OutElem)
deriving DecidableEq, Repr

/-- One `device.execute(page, payload)` invocation (payload values are the
configured on/off string lists). -/
structure ExecuteCall where
  page : String
  payload : List (String × List String)
deriving DecidableEq, Repr

/-- The classification step of `SamsungOcfSwitch.is_on` on the payload output:
`None` models a Python `IndexError` from `on_value[0]` / `off_value[0]` on an
empty list.  When the on-value list has more than one element the whole lists
are tested for membership; otherwise the elements at index 0 are; the on test
runs first and the previous cached state is retained when neither matches. -/
def classifyOutput (sw : SamsungOcfSwitch) (prev : Bool) (output : List OutElem) :
    Option Bool :=
  if sw.on_value.length > 1 then
    some (if OutElem.strs sw.on_value ∈ output then true
          else if OutElem.strs sw.off_value ∈ output then false
          else prev)
  else
    match sw.on_value.head? with
    | Option.none => Option.none
    | some ov =>
      if OutElem.str ov ∈ output then some true
      else
        match sw.off_value.head? with
        | Option.none => Option.none
        | some fv => some (if OutElem.str fv ∈ output then false else prev)

/-- `SamsungOcfSwitch.is_on`: when `init_bool` is unset, `startup()` issues one
fire-and-forget `device.execute(page)` page visit (counted by the third
component).  When the data attribute's href equals the watched page, sets
`init_bool`, classifies the payload output at the watched key and caches the
result; otherwise returns the cached state unchanged.  `None` models a Python
exception (missing payload key, or an empty configured value list). -/
def SamsungOcfSwitch.is_on (sw : SamsungOcfSwitch) (st : OcfSnapshot) (s : OcfState) :
    Option (Bool × OcfState × Nat) :=
  let visits := if s.init_bool then 0 else 1
  if st.data_href = sw.page then
    match st.data_payload.lookup sw.key with
    | Option.none => Option.none
    | some output =>
      match classifyOutput sw s.execute_state output with
      | Option.none => Option.none
      | some es => some (es, ⟨es, true⟩, visits)
  else
    some (s.execute_state, s, visits)

/-- `SamsungOcfSwitch.async_turn_off`: issues
`device.execute(page, {key: off_value})`; on a truthy result replaces the data
attribute's value with `{"payload": {key: off_value}}` (metadata href is
untouched) and sets the cached state to `False` directly; always emits the
state-changed notification (last component). -/
def SamsungOcfSwitch.async_turn_off (sw : SamsungOcfSwitch) (st : OcfSnapshot)
    (s : OcfState) (result : Bool) : ExecuteCall × OcfSnapshot × OcfState × Bool :=
  (⟨sw.page, [(sw.key, sw.off_value)]⟩,
   if result then { st with data_payload := [(sw.key, sw.off_value.map OutElem.str)] } else st,
   if result then { s with execute_state := false } else s,
   true)

/-- `SamsungOcfSwitch.async_turn_on`, symmetric, setting cached state `True`. -/
def SamsungOcfSwitch.async_turn_on (sw : SamsungOcfSwitch) (st : OcfSnapshot)
    (s : OcfState) (result : Bool) : ExecuteCall × OcfSnapshot × OcfState × Bool :=
  (⟨sw.page, [(sw.key, sw.on_value)]⟩,
   if result then { st with data_payload := [(sw.key, sw.on_value.map OutElem.str)] } else st,
   if result then { s with execute_state := true } else s,
   true)

/-- A paged switch configured with on-value list `["Light_On"]` and off-value
list `["Light_Off"]` on the watched page and key used by `async_setup_entry`. -/
def lightSwitch : SamsungOcfSwitch :=
  ⟨"/mode/vs/0", "x.com.samsung.da.options", ["Light_On"], ["Light_Off"],
   "Light", some "mdi:led-on", some "mdi:led-variant-off"⟩

/-- A fresh adapter state: both class-level flags start `False`. -/
def freshState : OcfState := ⟨false, false⟩

/-- A snapshot on the watched page whose payload at the watched key contains
the string `"Light_On"`. -/
def lightOnSnapshot : OcfSnapshot :=
  ⟨"/mode/vs/0", [("x.com.samsung.da.options", [OutElem.str "Light_On"])]⟩

/-- A snapshot whose data href is not the watched page of `lightSwitch`. -/
def offPageSnapshot : OcfSnapshot := ⟨"", []⟩

/-- A paged switch with a two-element on-value list, exercising the
whole-list-membership branch of the classification. -/
def pairSwitch : SamsungOcfSwitch :=
  ⟨"/p", "k", ["A", "B"], ["C"], "Pair", Option.none, Option.none⟩

/-- A snapshot on `pairSwitch`'s page whose payload holds the whole on list. -/
def pairSnapshot : OcfSnapshot := ⟨"/p", [("k", [OutElem.strs ["A", "B"]])]⟩

/-- A device snapshot whose `volume` attribute is `100`, others `None`. -/
def vol100Status : DeviceStatus :=
  ⟨fun a => if a = "volume" then PyVal.int 100 else PyVal.none⟩

/-- A device snapshot with every attribute `None`. -/
def blankStatus : DeviceStatus := ⟨fun _ => PyVal.none⟩

end Switch

namespace MediaPlayer

/-- The fixed `supported` capability list of `media_player.py`'s
`get_capabilities`. -/
def supported : List String :=
  ["switch", "mediaInputSource", "mediaPlayback", "mediaPlaybackRepeat",
   "mediaPlaybackShuffle", "audioMute", "audioVolume", "tvChannel",
   "powerMeter", "powerConsumptionReport", "powerSource"]

/-- `get_capabilities` of `media_player.py`: the whole `supported` list when
every one of its members is present in the input, otherwise `None`. -/
def get_capabilities (capabilities : List String) : Option (List String) :=
  if supported.all (fun c => decide (c ∈ capabilities)) then some supported
  else Option.none

end MediaPlayer

open Switch

/-- C1: for every custom switch and snapshot, `async_turn_off` with a truthy
remote-command result leaves the snapshot's mapped attribute equal to the
configured off value, and with a falsy result leaves the snapshot unchanged;
symmetrically `async_turn_on` with the on value. -/
theorem custom_switch_result_policy (sw : SmartThingsCustomSwitch) (st : DeviceStatus) :
    (sw.async_turn_off st true).status.attrs sw.attr = sw.off_value
  ∧ (sw.async_turn_off st false).status = st
  ∧ (sw.async_turn_on st true).status.attrs sw.attr = sw.on_value
  ∧ (sw.async_turn_on st false).status = st := by
  refine ⟨?_, rfl, ?_, rfl⟩ <;>
    simp [SmartThingsCustomSwitch.async_turn_off, SmartThingsCustomSwitch.async_turn_on,
      DeviceStatus.update_attribute_value]

/-- C7: for every custom switch invocation, the state-changed notification is
emitted regardless of the remote command result, even though on a falsy
result the snapshot is left untouched. -/
theorem custom_switch_always_notifies (sw : SmartThingsCustomSwitch) (st : DeviceStatus) :
    (∀ r : Bool, (sw.async_turn_off st r).wrote_ha_state = true
               ∧ (sw.async_turn_on st r).wrote_ha_state = true)
  ∧ (sw.async_turn_off st false).status = st
  ∧ (sw.async_turn_on st false).status = st :=
  ⟨fun _ => ⟨rfl, rfl⟩, rfl, rfl⟩

/-- C3: the switch platform's `get_capabilities` returns exactly the registry
keys of `CAPABILITY_TO_SWITCH` that are members of the input, in registry
order (a sublist of the key list), and an empty intersection yields `[]`; it
is a total pure function. -/
theorem switch_get_capabilities_exact (S : List String) :
    (∀ c, c ∈ Switch.get_capabilities S ↔
        c ∈ CAPABILITY_TO_SWITCH.map Prod.fst ∧ c ∈ S)
  ∧ (Switch.get_capabilities S).Sublist (CAPABILITY_TO_SWITCH.map Prod.fst)
  ∧ ((∀ c ∈ CAPABILITY_TO_SWITCH.map Prod.fst, c ∉ S) →
        Switch.get_capabilities S = []) := by
  refine ⟨fun c => ?_, List.filter_sublist _, fun h => ?_⟩
  · simp [Switch.get_capabilities, List.mem_filter]
  · rw [Switch.get_capabilities, List.filter_eq_nil_iff]
    intro a ha
    simp [h a ha]

/-- C3 witness: a capability list disjoint from the registry keys yields an
empty result. -/
theorem switch_get_capabilities_exact_witness :
    Switch.get_capabilities ["fanSpeed"] = [] :=
  (switch_get_capabilities_exact ["fanSpeed"]).2.2 (by decide)

/-- C4: the media player's `get_capabilities` returns the fixed
eleven-capability list exactly when all eleven are present in the input, and
`None` otherwise; no partial subset is ever returned. -/
theorem media_player_all_or_nothing (S : List String) :
    ((∀ c ∈ MediaPlayer.supported, c ∈ S) →
        MediaPlayer.get_capabilities S = some MediaPlayer.supported)
  ∧ ((¬ ∀ c ∈ MediaPlayer.supported, c ∈ S) →
        MediaPlayer.get_capabilities S = Option.none)
  ∧ (∀ r, MediaPlayer.get_capabilities S = some r → r = MediaPlayer.supported)
  ∧ MediaPlayer.supported.length = 11 := by
  refine ⟨fun h => ?_, fun h => ?_, fun r hr => ?_, rfl⟩
  · rw [MediaPlayer.get_capabilities, if_pos]
    rw [List.all_eq_true]
    exact fun c hc => decide_eq_true (h c hc)
  · rw [MediaPlayer.get_capabilities, if_neg]
    rw [List.all_eq_true]
    exact fun hall => h fun c hc => of_decide_eq_true (hall c hc)
  · unfold MediaPlayer.get_capabilities at hr
    split at hr
    · exact (Option.some.inj hr).symm
    · exact absurd hr (by simp)

/-- C4 witness: on an input holding all eleven capabilities, the whole fixed
list is returned. -/
theorem media_player_all_or_nothing_witness :
    MediaPlayer.get_capabilities MediaPlayer.supported = some MediaPlayer.supported :=
  (media_player_all_or_nothing MediaPlayer.supported).1 (by decide)

/-- C5: for a generic switch mapped to the `switch` attribute (the only
mapping `async_setup_entry` routes to `SmartThingsSwitch`), after
`async_turn_on` completes the optimistically patched snapshot makes `is_on`
read `True` immediately, for every prior snapshot, and the state-changed
notification is emitted. -/
theorem generic_switch_optimistic_on (sw : SmartThingsSwitch) (st : DeviceStatus)
    (h : sw.attr = "switch") :
    sw.is_on (sw.async_turn_on st).1 = PyVal.bool true
  ∧ (sw.async_turn_on st).2 = true := by
  refine ⟨?_, rfl⟩
  simp [SmartThingsSwitch.is_on, SmartThingsSwitch.async_turn_on, h,
    switch_on_set_status, DeviceStatus.getattr, DeviceStatus.update_attribute_value, pyEq]

/-- C5 witness: the concrete registry-built generic switch, turned on from a
blank snapshot, reads as on. -/
theorem generic_switch_optimistic_on_witness :
    genericSwitch.is_on (genericSwitch.async_turn_on blankStatus).1 = PyVal.bool true
  ∧ (genericSwitch.async_turn_on blankStatus).2 = true :=
  generic_switch_optimistic_on genericSwitch blankStatus rfl

/-- C10: the custom switch's `is_on` is the comparison of the dynamically read
attribute with the configured on value whenever that value is not `None`, and
the raw attribute read otherwise; in particular the Audio switch (on value
`100`) reads on exactly when the `volume` attribute equals `100`. -/
theorem custom_switch_is_on_characterisation (sw : SmartThingsCustomSwitch)
    (st : DeviceStatus) :
    (sw.on_value ≠ PyVal.none →
        sw.is_on st = PyVal.bool (pyEq (st.getattr sw.attr) sw.on_value))
  ∧ (sw.on_value = PyVal.none → sw.is_on st = st.getattr sw.attr)
  ∧ (audioSwitch.is_on st = PyVal.bool true ↔
        pyEq (st.attrs "volume") (PyVal.int 100) = true) := by
  refine ⟨fun h => ?_, fun h => ?_, ?_⟩
  · rw [SmartThingsCustomSwitch.is_on, if_pos h]
  · rw [SmartThingsCustomSwitch.is_on, if_neg (by simp [h])]
  · simp [SmartThingsCustomSwitch.is_on, audioSwitch, DeviceStatus.getattr]

/-- C10 witness: with the volume attribute at `100`, the Audio switch's
`is_on` is the comparison result. -/
theorem custom_switch_is_on_characterisation_witness :
    audioSwitch.is_on vol100Status
      = PyVal.bool (pyEq (vol100Status.getattr audioSwitch.attr) audioSwitch.on_value) :=
  (custom_switch_is_on_characterisation audioSwitch vol100Status).1 (by decide)

/-- Helper: on a snapshot whose data href matches the watched page, `is_on`
returns whatever the classification step yields, caches it, and marks the
adapter initialised. -/
lemma SamsungOcfSwitch.is_on_page (sw : SamsungOcfSwitch) (st : OcfSnapshot)
    (s : OcfState) (output : List OutElem) (b : Bool)
    (hhref : st.data_href = sw.page)
    (hlook : st.data_payload.lookup sw.key = some output)
    (hcl : classifyOutput sw s.execute_state output = some b) :
    sw.is_on st s = some (b, ⟨b, true⟩, if s.init_bool then 0 else 1) := by
  unfold SamsungOcfSwitch.is_on
  simp only [if_pos hhref, hlook, hcl]

/-- C2: the paged switch configured with on list `["Light_On"]` and off list
`["Light_Off"]`, read on a snapshot whose data href is the watched page:
a payload output containing `"Light_On"` classifies as on, one containing
`"Light_Off"` (and not `"Light_On"`, which is tested first) classifies as
off, and one containing neither returns the previously cached state and
leaves it unchanged. -/
theorem ocf_light_classification (st : OcfSnapshot) (s : OcfState)
    (output : List OutElem)
    (hhref : st.data_href = lightSwitch.page)
    (hlook : st.data_payload.lookup lightSwitch.key = some output) :
    (OutElem.str "Light_On" ∈ output →
        lightSwitch.is_on st s
          = some (true, ⟨true, true⟩, if s.init_bool then 0 else 1))
  ∧ (OutElem.str "Light_On" ∉ output → OutElem.str "Light_Off" ∈ output →
        lightSwitch.is_on st s
          = some (false, ⟨false, true⟩, if s.init_bool then 0 else 1))
  ∧ (OutElem.str "Light_On" ∉ output → OutElem.str "Light_Off" ∉ output →
        lightSwitch.is_on st s
          = some (s.execute_state, ⟨s.execute_state, true⟩,
                  if s.init_bool then 0 else 1)) := by
  refine ⟨fun h1 => ?_, fun h1 h2 => ?_, fun h1 h2 => ?_⟩ <;>
    exact SamsungOcfSwitch.is_on_page _ _ _ _ _ hhref hlook
      (by unfold classifyOutput; simp [lightSwitch, *])

/-- C2 witness: a fresh light switch reading a matching-page snapshot whose
payload holds `"Light_On"` classifies as on. -/
theorem ocf_light_classification_witness :
    lightSwitch.is_on lightOnSnapshot freshState = some (true, ⟨true, true⟩, 1) :=
  (ocf_light_classification lightOnSnapshot freshState
      [OutElem.str "Light_On"] rfl rfl).1 (by decide)

/-- C6 counterexample: on a fresh adapter whose snapshot's data href is not
the watched page, the first `is_on` read issues one page visit and returns
with the state still uninitialised, so a later read — the same evaluation —
again issues one page visit rather than none, refuting "later reads trigger
no further page visits" as stated. -/
theorem ocf_first_read_counterexample :
    lightSwitch.is_on offPageSnapshot freshState = some (false, freshState, 1)
  ∧ (lightSwitch.is_on offPageSnapshot freshState).map (fun r => r.2.2)
      ≠ some 0 := by
  decide

/-- C6 (amended): a successful `is_on` read issues exactly one page visit when
the adapter is uninitialised and none afterwards; the adapter becomes (or
stays) initialised exactly when it already was or the snapshot's data href
equals the watched page.  Hence the very first read on a fresh adapter issues
exactly one page visit, and later reads issue none once some read has
observed the watched page — until then every read issues one. -/
theorem ocf_page_visit_policy (sw : SamsungOcfSwitch) (st : OcfSnapshot)
    (s : OcfState) (b : Bool) (s' : OcfState) (v : Nat)
    (h : sw.is_on st s = some (b, s', v)) :
    v = (if s.init_bool then 0 else 1)
  ∧ s'.init_bool = (s.init_bool || (st.data_href == sw.page)) := by
  by_cases hp : st.data_href = sw.page
  · simp only [SamsungOcfSwitch.is_on, if_pos hp] at h
    cases hl : st.data_payload.lookup sw.key with
    | none => simp only [hl] at h; exact Option.noConfusion h
    | some output =>
      simp only [hl] at h
      cases hc : classifyOutput sw s.execute_state output with
      | none => simp only [hc] at h; exact Option.noConfusion h
      | some es =>
        simp only [hc, Option.some.injEq, Prod.mk.injEq] at h
        obtain ⟨-, hs, hv⟩ := h
        refine ⟨hv.symm, ?_⟩
        rw [← hs]
        simp [hp]
  · simp only [SamsungOcfSwitch.is_on, if_neg hp, Option.some.injEq,
      Prod.mk.injEq] at h
    obtain ⟨-, hs, hv⟩ := h
    have hb : (st.data_href == sw.page) = false := beq_eq_false_iff_ne.mpr hp
    rw [← hs, hb, Bool.or_false]
    exact ⟨hv.symm, rfl⟩

/-- C6 witness: the fresh off-page read issues one visit and stays
uninitialised. -/
theorem ocf_page_visit_policy_witness :
    (1 : Nat) = (if freshState.init_bool then 0 else 1)
  ∧ freshState.init_bool
      = (freshState.init_bool || (offPageSnapshot.data_href == lightSwitch.page)) :=
  ocf_page_visit_policy lightSwitch offPageSnapshot freshState
    false freshState 1 (by decide)

/-- C8: on a matching-page read, the comparison form is chosen by the length
of the configured on-value list: with more than one element, the whole on
list and then the whole off list are tested for membership in the payload
output; with exactly one element, the elements at index 0 are tested instead;
in both forms the on test is performed first and a double miss retains the
cached state. -/
theorem ocf_classification_by_length (sw : SamsungOcfSwitch) (st : OcfSnapshot)
    (s : OcfState) (output : List OutElem)
    (hhref : st.data_href = sw.page)
    (hlook : st.data_payload.lookup sw.key = some output) :
    (sw.on_value.length > 1 →
      ∀ b, b = (if OutElem.strs sw.on_value ∈ output then true
                else if OutElem.strs sw.off_value ∈ output then false
                else s.execute_state) →
        sw.is_on st s = some (b, ⟨b, true⟩, if s.init_bool then 0 else 1))
  ∧ (∀ a f ft, sw.on_value = [a] → sw.off_value = f :: ft →
      ∀ b, b = (if OutElem.str a ∈ output then true
                else if OutElem.str f ∈ output then false
                else s.execute_state) →
        sw.is_on st s = some (b, ⟨b, true⟩, if s.init_bool then 0 else 1)) := by
  constructor
  · intro hlen b hb
    refine SamsungOcfSwitch.is_on_page _ _ _ _ _ hhref hlook ?_
    unfold classifyOutput
    rw [if_pos hlen, hb]
  · intro a f ft hon hoff b hb
    refine SamsungOcfSwitch.is_on_page _ _ _ _ _ hhref hlook ?_
    unfold classifyOutput
    rw [hon, hoff, hb]
    by_cases hm : OutElem.str a ∈ output <;> simp [hm]

/-- C8 witness: a two-element on list is matched as a whole list in the
payload output. -/
theorem ocf_classification_by_length_witness :
    pairSwitch.is_on pairSnapshot freshState = some (true, ⟨true, true⟩, 1) :=
  (ocf_classification_by_length pairSwitch pairSnapshot freshState
      [OutElem.strs ["A", "B"]] rfl rfl).1 (by decide) true (by decide)

/-- C9: the paged switch's write handlers issue the execute-at-page call with
the key/value payload; on a truthy result they replace the data attribute's
payload with that key/value pair and set the cached state directly (`false`
for turn-off, `true` for turn-on, with no classification of the payload); on
a falsy result neither the snapshot nor the cached state changes; the
notification is always emitted. -/
theorem ocf_write_path (sw : SamsungOcfSwitch) (st : OcfSnapshot) (s : OcfState) :
    ((sw.async_turn_off st s true).1 = ⟨sw.page, [(sw.key, sw.off_value)]⟩
      ∧ (sw.async_turn_off st s true).2.1
          = { st with data_payload := [(sw.key, sw.off_value.map OutElem.str)] }
      ∧ (sw.async_turn_off st s true).2.2.1 = ⟨false, s.init_bool⟩)
  ∧ ((sw.async_turn_off st s false).2.1 = st
      ∧ (sw.async_turn_off st s false).2.2.1 = s)
  ∧ ((sw.async_turn_on st s true).1 = ⟨sw.page, [(sw.key, sw.on_value)]⟩
      ∧ (sw.async_turn_on st s true).2.1
          = { st with data_payload := [(sw.key, sw.on_value.map OutElem.str)] }
      ∧ (sw.async_turn_on st s true).2.2.1 = ⟨true, s.init_bool⟩)
  ∧ ((sw.async_turn_on st s false).2.1 = st
      ∧ (sw.async_turn_on st s false).2.2.1 = s)
  ∧ (∀ r : Bool, (sw.async_turn_off st s r).2.2.2 = true
              ∧ (sw.async_turn_on st s r).2.2.2 = true) :=
  ⟨⟨rfl, rfl, rfl⟩, ⟨rfl, rfl⟩, ⟨rfl, rfl, rfl⟩, ⟨rfl, rfl⟩, fun _ => ⟨rfl, rfl⟩⟩

end SmartThings
